import Mathlib

/-!
# Trebuchet simulator — verification of the construction and launch-control core

Shallow embedding of the trebuchet-simulator repository's core
(`trebuchet.js` / `TrebuchetSimulator`, and the archetype builders under
`trebuchets/`).  Machine numbers are modelled as real numbers; the external
physics engine (Planck.js) is modelled as an adversarial oracle that delivers
the projectile's position/velocity and contact events each tick, while every
piece of logic the repository itself implements (geometry solving, release
policies, ground-impact handling, statistics, the step loop) is translated
directly from the source.
-/

namespace Trebuchet

/-- JS `a || b` applied to numbers: falls back to `b` when `a` is `0`
(the only falsy number value representable in this real-number model). -/
noncomputable def orDefault (x d : ℝ) : ℝ := if x = 0 then d else x

/-- The parameter set passed to `build` (`getDefaultParameters` of
`trebuchet.js` plus `armLength`, which the sandbox builder reads;
the canonical default parameter object carries no `armLength` entry,
so sandbox builds are modelled with an explicitly supplied value). -/
structure Params where
  projectileArmLength : ℝ
  counterweightArmLength : ℝ
  armLength : ℝ
  counterweightMass : ℝ
  counterweightSize : ℝ
  projectileMass : ℝ
  projectileSize : ℝ
  slingLength : ℝ
  armMass : ℝ
  releaseAngle : ℝ
  armHeight : ℝ

/-- `getDefaultParameters()` of the canonical `TrebuchetSimulator`
(`armLength` is absent there; we record it as `0`). -/
def defaultParameters : Params where
  projectileArmLength := 14
  counterweightArmLength := 6
  armLength := 0
  counterweightMass := 200
  counterweightSize := 1
  projectileMass := 10
  projectileSize := 0.4
  slingLength := 12
  armMass := 30
  releaseAngle := 45
  armHeight := 13

/-! ## Geometry solver (projectile initial position)

`FixedCounterweightTrebuchetBuilder.build` (base-trebuchet.js, lines
205–229) and `SandboxTrebuchetBuilder.build` (sandbox-trebuchet.js, lines
104–126) position the projectile with the same closed-form computation. -/

/-- The arm's initial angle in the fixed and sandbox builders:
`const armAngle = -Math.PI / 4`. -/
noncomputable def armAngle : ℝ := -(Real.pi / 4)

/-- `const projRadius = 0.75` in the fixed and sandbox builders. -/
def projRadius : ℝ := 0.75

/-- The two sling anchor points and the projectile's initial position
computed by a builder. -/
structure SlingGeometry where
  slingAttachX : ℝ
  slingAttachY : ℝ
  projX : ℝ
  projY : ℝ

/-- The projectile-placement computation shared verbatim by the fixed and
sandbox builders: the sling attachment point is the arm's projectile-side
tip at `-leftArmLength` along the arm rotated by `armAngle`; the projectile
rests on the ground (`projY = baseY - projRadius`); its x position extends to
the right by `sqrt(slingLength² - verticalDistance²)` when the sling is
longer than the vertical distance, else sits at the attachment x. -/
noncomputable def slingGeometry (baseX pivotY baseY leftArmLength slingLength : ℝ) :
    SlingGeometry :=
  let slingAttachX := baseX + -leftArmLength * Real.cos armAngle
  let slingAttachY := pivotY + -leftArmLength * Real.sin armAngle
  let projY := baseY - projRadius
  let verticalDistance := |projY - slingAttachY|
  let projX :=
    if slingLength > verticalDistance then
      slingAttachX +
        Real.sqrt (slingLength * slingLength - verticalDistance * verticalDistance)
    else
      slingAttachX
  { slingAttachX := slingAttachX, slingAttachY := slingAttachY
    projX := projX, projY := projY }

/-- Projectile placement of `FixedCounterweightTrebuchetBuilder.build`:
`leftArmLength = params.projectileArmLength`,
`pivotY = baseY - (params.armHeight || 22.5)`,
`slingLength = params.slingLength || 6`. -/
noncomputable def fixedSlingGeometry (baseX baseY : ℝ) (p : Params) : SlingGeometry :=
  slingGeometry baseX (baseY - orDefault p.armHeight 22.5) baseY
    p.projectileArmLength (orDefault p.slingLength 6)

/-- Projectile placement of `SandboxTrebuchetBuilder.build`:
`leftArmLength = params.armLength * 0.7`, otherwise as the fixed builder. -/
noncomputable def sandboxSlingGeometry (baseX baseY : ℝ) (p : Params) : SlingGeometry :=
  slingGeometry baseX (baseY - orDefault p.armHeight 22.5) baseY
    (p.armLength * 0.7) (orDefault p.slingLength 6)

/-- Modelled from the spec: the source files of
`HingedCounterweightTrebuchetBuilder` and `WhipperTrebuchetBuilder` (wired
into the canonical simulator's builder map) are not among the repository
files; §4.2 of the spec states every archetype positions its projectile via
the same geometry solver ("positioned via the Geometry Solver so that the
sling … measures exactly `slingLength`"), which we model as the shared
`slingGeometry` computation with the hinged arm's projectile-side length. -/
noncomputable def hingedCounterweightSlingGeometry (baseX baseY : ℝ) (p : Params) :
    SlingGeometry :=
  slingGeometry baseX (baseY - orDefault p.armHeight 22.5) baseY
    p.projectileArmLength (orDefault p.slingLength 6)

/-- The property claimed of a builder's projectile placement: when the sling
is longer than the vertical distance between attachment point and projectile
rest height, the horizontal offset is `sqrt(slingLength² - verticalDistance²)`
taken rightward and the Euclidean distance between the two sling anchor points
is exactly `slingLength`; otherwise the horizontal offset is zero. -/
noncomputable def SlingExact (g : SlingGeometry) (slingLength : ℝ) : Prop :=
  (|g.projY - g.slingAttachY| < slingLength →
      g.projX = g.slingAttachX +
        Real.sqrt (slingLength * slingLength -
          |g.projY - g.slingAttachY| * |g.projY - g.slingAttachY|) ∧
      g.slingAttachX ≤ g.projX ∧
      Real.sqrt ((g.projX - g.slingAttachX) ^ 2 + (g.projY - g.slingAttachY) ^ 2) =
        slingLength) ∧
  (slingLength ≤ |g.projY - g.slingAttachY| → g.projX = g.slingAttachX)

theorem slingGeometry_exact (baseX pivotY baseY leftArmLength slingLength : ℝ) :
    SlingExact (slingGeometry baseX pivotY baseY leftArmLength slingLength)
      slingLength := by
  unfold SlingExact slingGeometry
  set aX := baseX + -leftArmLength * Real.cos armAngle with haX
  set aY := pivotY + -leftArmLength * Real.sin armAngle with haY
  set pY := baseY - projRadius with hpY
  set v := |pY - aY| with hv
  simp only
  constructor
  · intro hlt
    have hv0 : 0 ≤ v := abs_nonneg _
    have hL0 : 0 ≤ slingLength := le_of_lt (lt_of_le_of_lt hv0 hlt)
    have hsub : 0 ≤ slingLength * slingLength - v * v := by nlinarith
    rw [if_pos hlt]
    refine ⟨rfl, ?_, ?_⟩
    · have := Real.sqrt_nonneg (slingLength * slingLength - v * v)
      linarith
    · have h1 : (aX + Real.sqrt (slingLength * slingLength - v * v) - aX) ^ 2 =
          slingLength * slingLength - v * v := by
        rw [add_sub_cancel_left, Real.sq_sqrt hsub]
      have h2 : (pY - aY) ^ 2 = v * v := by
        rw [hv, ← sq_abs (pY - aY)]; ring
      rw [h1, h2]
      have : slingLength * slingLength - v * v + v * v = slingLength ^ 2 := by ring
      rw [this, Real.sqrt_sq hL0]
  · intro hle
    rw [if_neg (not_lt.mpr hle)]

/-- C1: for the fixed-counterweight and sandbox builds (and the
spec-modelled hinged-counterweight build), the initial projectile position
satisfies the closed-form sling geometry: when `slingLength` exceeds the
vertical distance from the sling attachment point to the projectile's rest
height, the horizontal offset is `sqrt(slingLength² - verticalDistance²)`
taken rightward and the Euclidean distance between the sling's two anchor
points equals `slingLength` exactly; otherwise the horizontal offset is
zero (projectile directly below the attachment point). -/
theorem C1_projectile_initial_position (baseX baseY : ℝ) (p : Params) :
    SlingExact (fixedSlingGeometry baseX baseY p) (orDefault p.slingLength 6) ∧
    SlingExact (sandboxSlingGeometry baseX baseY p) (orDefault p.slingLength 6) ∧
    SlingExact (hingedCounterweightSlingGeometry baseX baseY p)
      (orDefault p.slingLength 6) :=
  ⟨slingGeometry_exact _ _ _ _ _, slingGeometry_exact _ _ _ _ _,
    slingGeometry_exact _ _ _ _ _⟩

/-! ## Launch controller (trebuchet.js, canonical `TrebuchetSimulator`)

The Planck.js world is external: its integration step is modelled as an
adversarial oracle (`Obs`) that delivers the projectile's position, linear
velocity, and whether a projectile–ground begin-contact event fired during
the step.  Everything else below is translated from the source. -/

/-- `const SCALE = 20` (pixels per meter). -/
def SCALE : ℝ := 20

/-- JS `Math.atan2 y x`. -/
noncomputable def atan2 (y x : ℝ) : ℝ :=
  if 0 < x then Real.arctan (y / x)
  else if x < 0 then
    (if 0 ≤ y then Real.arctan (y / x) + Real.pi else Real.arctan (y / x) - Real.pi)
  else if 0 < y then Real.pi / 2
  else if y < 0 then -(Real.pi / 2)
  else 0

/-- The simulator's `stats` object (the `estimatedDistance` entry is handled
by the estimation engine model below). -/
structure Stats where
  distance : ℝ
  height : ℝ
  maxDistance : ℝ
  maxHeight : ℝ
  velocity : ℝ
  maxVelocity : ℝ
  time : ℝ

/-- The all-zero stats record written by `buildTrebuchet` and `fire`. -/
def Stats.zero : Stats := ⟨0, 0, 0, 0, 0, 0, 0⟩

/-- What one external `world.step(1/60)` delivers: the projectile's new
position and linear velocity (adversarial — the engine may perturb them
arbitrarily, including for a body the controller made static), and whether a
projectile–ground `begin-contact` event fired during the step. -/
structure Obs where
  pos : ℝ × ℝ
  vel : ℝ × ℝ
  contactGround : Bool

/-- The `TrebuchetSimulator` fields the launch-control logic reads and
writes.  `pendingRelease` is the scheduler's state for the `setTimeout`
callback registered by `fire()`; `releaseCount` and `timeoutCount` are ghost
counters of `destroyJoint(slingJoint)` calls and of release timeouts
scheduled. -/
structure SimState where
  slingJoint : Bool
  fired : Bool
  paused : Bool
  projectile : Bool
  projectileHitGround : Bool
  projStatic : Bool
  projPos : ℝ × ℝ
  projVel : ℝ × ℝ
  projAngVel : ℝ
  stats : Stats
  trajectory : List (ℝ × ℝ)
  startX : ℝ
  startY : ℝ
  pendingRelease : Bool
  releaseCount : ℕ
  timeoutCount : ℕ

/-- The `begin-contact` listener installed in `setupPhysics` (canonical
trebuchet.js, lines 40–81): on a projectile–ground contact, if the
projectile has not already hit the ground and the trebuchet has been fired,
mark `projectileHitGround`, zero the projectile's linear and angular
velocity and make its body static. -/
def beginContact (s : SimState) : SimState :=
  if s.projectileHitGround = false ∧ s.fired = true then
    { s with projectileHitGround := true, projVel := (0, 0), projAngVel := 0,
             projStatic := true }
  else s

/-- One external `world.step(1/60)`: the engine integrates (delivering the
oracle's position/velocity for the projectile) and fires the registered
`begin-contact` listener when a projectile–ground contact began. -/
def worldStep (o : Obs) (s : SimState) : SimState :=
  if s.projectile = true then
    let s1 := { s with projPos := o.pos, projVel := o.vel }
    if o.contactGround = true then beginContact s1 else s1
  else s

/-- `checkSlingRelease` (canonical trebuchet.js, lines 129–153): when the
sling joint and the projectile exist, compute the velocity angle from
horizontal (`atan2(-vel.y, vel.x)`) and the speed; when speed exceeds 10 and
the angle is within 0.05 rad of 45°, destroy the sling joint, clear the
reference and set `fired`. -/
noncomputable def checkSlingRelease (s : SimState) : SimState :=
  if s.slingJoint = true ∧ s.projectile = true then
    let vel := s.projVel
    let velocityAngle := atan2 (-vel.2) vel.1
    let targetReleaseAngle := Real.pi / 4
    let angleTolerance : ℝ := 0.05
    let speed := Real.sqrt (vel.1 * vel.1 + vel.2 * vel.2)
    if speed > 10 ∧ |velocityAngle - targetReleaseAngle| < angleTolerance then
      { s with slingJoint := false, fired := true,
               releaseCount := s.releaseCount + 1 }
    else s
  else s

/-- `updateProjectileTracking`, stage 1 (lines 158–165): keep the
projectile stopped if it already hit the ground — re-zero linear and
angular velocity and keep the body static. -/
def trackStop (s : SimState) : SimState :=
  if s.projectileHitGround = true then
    { s with projVel := (0, 0), projAngVel := 0, projStatic := true }
  else s

/-- `updateProjectileTracking`, stage 2 (lines 167–168): push the scaled
position onto the trajectory. -/
def pushTrajectory (s : SimState) : SimState :=
  { s with trajectory := s.trajectory ++ [(s.projPos.1 * SCALE, s.projPos.2 * SCALE)] }

/-- `updateProjectileTracking`, stage 3 (lines 170–183): distance from the
starting x position, clamped at 0 for the live stat, plus its running
maximum. -/
noncomputable def trackDistance (s : SimState) : SimState :=
  let distance := s.projPos.1 - s.startX
  let s3 := { s with stats := { s.stats with distance := max 0 distance } }
  if distance > s3.stats.maxDistance then
    { s3 with stats := { s3.stats with maxDistance := distance } }
  else s3

/-- `updateProjectileTracking`, stage 4 (lines 185–189): height above the
starting position (the engine's y axis grows downward, so subtract),
clamped at 0 for the live stat, plus its running maximum. -/
noncomputable def trackHeight (s : SimState) : SimState :=
  let height := s.startY - s.projPos.2
  let s5 := { s with stats := { s.stats with height := max 0 height } }
  if height > s5.stats.maxHeight then
    { s5 with stats := { s5.stats with maxHeight := height } }
  else s5

/-- `updateProjectileTracking`, stage 5 (lines 191–201): current speed and
its running maximum (`vel` is always a vector and `speed` never NaN in this
real-number model). -/
noncomputable def trackVelocity (s : SimState) : SimState :=
  let speed := Real.sqrt (s.projVel.1 * s.projVel.1 + s.projVel.2 * s.projVel.2)
  let s7 := { s with stats := { s.stats with velocity := speed } }
  if speed > s7.stats.maxVelocity then
    { s7 with stats := { s7.stats with maxVelocity := speed } }
  else s7

/-- `updateProjectileTracking`, stage 6 (lines 203–206): elapsed time
accumulates one fixed tick (1/60 s) only while the projectile has not hit
the ground. -/
noncomputable def trackTime (s : SimState) : SimState :=
  if s.projectileHitGround = false then
    { s with stats := { s.stats with time := s.stats.time + 1 / 60 } }
  else s

/-- `updateProjectileTracking` (canonical trebuchet.js, lines 155–208):
runs the six stages above in source order when a projectile exists. -/
noncomputable def updateProjectileTracking (s : SimState) : SimState :=
  if s.projectile = true then
    trackTime (trackVelocity (trackHeight (trackDistance (pushTrajectory (trackStop s)))))
  else s

/-- One simulated frame as both the unpaused `animate` loop and the body of
`step`'s loop run it: `world.step(1/60); checkSlingRelease();
updateProjectileTracking();` (rendering has no effect on this state). -/
noncomputable def tick (o : Obs) (s : SimState) : SimState :=
  updateProjectileTracking (checkSlingRelease (worldStep o s))

/-- One `animate` frame (canonical trebuchet.js, lines 210–219): the tick
runs only while not paused. -/
noncomputable def animate (o : Obs) (s : SimState) : SimState :=
  if s.paused = true then s else tick o s

/-- `fire()` (canonical trebuchet.js, lines 404–422): no-op when already
fired or no projectile exists; otherwise unpause if paused, set `fired`,
reset the stats, and schedule one sling-release timeout (100 ms). -/
def fire (s : SimState) : SimState :=
  if s.fired = true ∨ s.projectile = false then s
  else
    let s1 := if s.paused = true then { s with paused := false } else s
    { s1 with fired := true, stats := Stats.zero,
              pendingRelease := true, timeoutCount := s1.timeoutCount + 1 }

/-- The `setTimeout` callback registered by `fire()` (lines 416–421),
delivered by the scheduler at most once per scheduling: if the sling joint
still exists, destroy it and clear the reference. -/
def timeoutFire (s : SimState) : SimState :=
  if s.pendingRelease = true then
    if s.slingJoint = true then
      { s with slingJoint := false, pendingRelease := false,
               releaseCount := s.releaseCount + 1 }
    else { s with pendingRelease := false }
  else s

/-- The tick sequence of `step`'s loop: `numSteps` frames, each one
`world.step`, `checkSlingRelease`, `updateProjectileTracking`. -/
noncomputable def ticks (os : List Obs) (s : SimState) : SimState :=
  os.foldl (fun t o => tick o t) s

/-- `step(numSteps)` (canonical trebuchet.js, lines 435–456): sets
`paused := true` (the saved `wasPaused` is never restored), then runs the
tick loop once per requested frame; the trailing render and stats display
do not touch this state. -/
noncomputable def stepOp (os : List Obs) (s : SimState) : SimState :=
  ticks os { s with paused := true }

/-- The events a build-lifetime interleaves (between `buildTrebuchet`
calls): forced `step` frames, `animate` frames, `fire()` calls, and the
delivery of the release timeout scheduled by `fire()`. -/
inductive Ev where
  | tick (o : Obs) : Ev
  | animate (o : Obs) : Ev
  | fire : Ev
  | timeout : Ev

/-- Apply one event. -/
noncomputable def applyEv (s : SimState) : Ev → SimState
  | .tick o => tick o s
  | .animate o => animate o s
  | .fire => fire s
  | .timeout => timeoutFire s

/-- Run a build-lifetime event trace. -/
noncomputable def run (evs : List Ev) (s : SimState) : SimState :=
  evs.foldl applyEv s

/-! ### Frame lemmas for the per-tick functions -/

theorem beginContact_paused (s : SimState) : (beginContact s).paused = s.paused := by
  unfold beginContact; split_ifs <;> rfl

theorem beginContact_slingJoint (s : SimState) :
    (beginContact s).slingJoint = s.slingJoint := by
  unfold beginContact; split_ifs <;> rfl

theorem beginContact_releaseCount (s : SimState) :
    (beginContact s).releaseCount = s.releaseCount := by
  unfold beginContact; split_ifs <;> rfl

theorem beginContact_projectile (s : SimState) :
    (beginContact s).projectile = s.projectile := by
  unfold beginContact; split_ifs <;> rfl

theorem beginContact_hit_mono (s : SimState) (h : s.projectileHitGround = true) :
    (beginContact s).projectileHitGround = true := by
  unfold beginContact; split_ifs <;> simp [h]

theorem worldStep_paused (o : Obs) (s : SimState) :
    (worldStep o s).paused = s.paused := by
  unfold worldStep; split_ifs <;> simp [beginContact_paused]

theorem worldStep_slingJoint (o : Obs) (s : SimState) :
    (worldStep o s).slingJoint = s.slingJoint := by
  unfold worldStep; split_ifs <;> simp [beginContact_slingJoint]

theorem worldStep_releaseCount (o : Obs) (s : SimState) :
    (worldStep o s).releaseCount = s.releaseCount := by
  unfold worldStep; split_ifs <;> simp [beginContact_releaseCount]

theorem worldStep_projectile (o : Obs) (s : SimState) :
    (worldStep o s).projectile = s.projectile := by
  unfold worldStep; split_ifs <;> simp [beginContact_projectile]

theorem worldStep_hit_mono (o : Obs) (s : SimState)
    (h : s.projectileHitGround = true) :
    (worldStep o s).projectileHitGround = true := by
  unfold worldStep; split_ifs <;> first | exact h | exact beginContact_hit_mono _ h

theorem checkSlingRelease_paused (s : SimState) :
    (checkSlingRelease s).paused = s.paused := by
  simp only [checkSlingRelease]; split_ifs <;> rfl

theorem checkSlingRelease_hit (s : SimState) :
    (checkSlingRelease s).projectileHitGround = s.projectileHitGround := by
  simp only [checkSlingRelease]; split_ifs <;> rfl

theorem checkSlingRelease_projectile (s : SimState) :
    (checkSlingRelease s).projectile = s.projectile := by
  simp only [checkSlingRelease]; split_ifs <;> rfl

theorem trackStop_frame (s : SimState) :
    (trackStop s).paused = s.paused ∧ (trackStop s).slingJoint = s.slingJoint ∧
    (trackStop s).releaseCount = s.releaseCount ∧
    (trackStop s).projectileHitGround = s.projectileHitGround ∧
    (trackStop s).projPos = s.projPos ∧ (trackStop s).startX = s.startX ∧
    (trackStop s).startY = s.startY ∧ (trackStop s).stats = s.stats := by
  unfold trackStop; split_ifs <;> exact ⟨rfl, rfl, rfl, rfl, rfl, rfl, rfl, rfl⟩

theorem pushTrajectory_frame (s : SimState) :
    (pushTrajectory s).paused = s.paused ∧
    (pushTrajectory s).slingJoint = s.slingJoint ∧
    (pushTrajectory s).releaseCount = s.releaseCount ∧
    (pushTrajectory s).projectileHitGround = s.projectileHitGround ∧
    (pushTrajectory s).projPos = s.projPos ∧ (pushTrajectory s).startX = s.startX ∧
    (pushTrajectory s).startY = s.startY ∧ (pushTrajectory s).stats = s.stats ∧
    (pushTrajectory s).projVel = s.projVel ∧
    (pushTrajectory s).projAngVel = s.projAngVel ∧
    (pushTrajectory s).projStatic = s.projStatic :=
  ⟨rfl, rfl, rfl, rfl, rfl, rfl, rfl, rfl, rfl, rfl, rfl⟩

theorem trackDistance_frame (s : SimState) :
    (trackDistance s).paused = s.paused ∧ (trackDistance s).slingJoint = s.slingJoint ∧
    (trackDistance s).releaseCount = s.releaseCount ∧
    (trackDistance s).projectileHitGround = s.projectileHitGround ∧
    (trackDistance s).projPos = s.projPos ∧ (trackDistance s).startX = s.startX ∧
    (trackDistance s).startY = s.startY ∧ (trackDistance s).projVel = s.projVel ∧
    (trackDistance s).projAngVel = s.projAngVel ∧
    (trackDistance s).projStatic = s.projStatic := by
  simp only [trackDistance]; split_ifs <;>
    exact ⟨rfl, rfl, rfl, rfl, rfl, rfl, rfl, rfl, rfl, rfl⟩

theorem trackHeight_frame (s : SimState) :
    (trackHeight s).paused = s.paused ∧ (trackHeight s).slingJoint = s.slingJoint ∧
    (trackHeight s).releaseCount = s.releaseCount ∧
    (trackHeight s).projectileHitGround = s.projectileHitGround ∧
    (trackHeight s).projPos = s.projPos ∧ (trackHeight s).startX = s.startX ∧
    (trackHeight s).startY = s.startY ∧ (trackHeight s).projVel = s.projVel ∧
    (trackHeight s).projAngVel = s.projAngVel ∧
    (trackHeight s).projStatic = s.projStatic := by
  simp only [trackHeight]; split_ifs <;>
    exact ⟨rfl, rfl, rfl, rfl, rfl, rfl, rfl, rfl, rfl, rfl⟩

theorem trackVelocity_frame (s : SimState) :
    (trackVelocity s).paused = s.paused ∧ (trackVelocity s).slingJoint = s.slingJoint ∧
    (trackVelocity s).releaseCount = s.releaseCount ∧
    (trackVelocity s).projectileHitGround = s.projectileHitGround ∧
    (trackVelocity s).projPos = s.projPos ∧ (trackVelocity s).startX = s.startX ∧
    (trackVelocity s).startY = s.startY ∧ (trackVelocity s).projVel = s.projVel ∧
    (trackVelocity s).projAngVel = s.projAngVel ∧
    (trackVelocity s).projStatic = s.projStatic := by
  simp only [trackVelocity]; split_ifs <;>
    exact ⟨rfl, rfl, rfl, rfl, rfl, rfl, rfl, rfl, rfl, rfl⟩

theorem trackTime_frame (s : SimState) :
    (trackTime s).paused = s.paused ∧ (trackTime s).slingJoint = s.slingJoint ∧
    (trackTime s).releaseCount = s.releaseCount ∧
    (trackTime s).projectileHitGround = s.projectileHitGround ∧
    (trackTime s).projPos = s.projPos ∧ (trackTime s).startX = s.startX ∧
    (trackTime s).startY = s.startY ∧ (trackTime s).projVel = s.projVel ∧
    (trackTime s).projAngVel = s.projAngVel ∧
    (trackTime s).projStatic = s.projStatic := by
  unfold trackTime; split_ifs <;>
    exact ⟨rfl, rfl, rfl, rfl, rfl, rfl, rfl, rfl, rfl, rfl⟩

theorem updateProjectileTracking_paused (s : SimState) :
    (updateProjectileTracking s).paused = s.paused := by
  unfold updateProjectileTracking; split_ifs with h
  · rw [(trackTime_frame _).1, (trackVelocity_frame _).1, (trackHeight_frame _).1,
      (trackDistance_frame _).1, (pushTrajectory_frame _).1, (trackStop_frame _).1]
  · rfl

theorem updateProjectileTracking_slingJoint (s : SimState) :
    (updateProjectileTracking s).slingJoint = s.slingJoint := by
  unfold updateProjectileTracking; split_ifs with h
  · rw [(trackTime_frame _).2.1, (trackVelocity_frame _).2.1, (trackHeight_frame _).2.1,
      (trackDistance_frame _).2.1, (pushTrajectory_frame _).2.1, (trackStop_frame _).2.1]
  · rfl

theorem updateProjectileTracking_releaseCount (s : SimState) :
    (updateProjectileTracking s).releaseCount = s.releaseCount := by
  unfold updateProjectileTracking; split_ifs with h
  · rw [(trackTime_frame _).2.2.1, (trackVelocity_frame _).2.2.1,
      (trackHeight_frame _).2.2.1, (trackDistance_frame _).2.2.1,
      (pushTrajectory_frame _).2.2.1, (trackStop_frame _).2.2.1]
  · rfl

theorem updateProjectileTracking_hit (s : SimState) :
    (updateProjectileTracking s).projectileHitGround = s.projectileHitGround := by
  unfold updateProjectileTracking; split_ifs with h
  · rw [(trackTime_frame _).2.2.2.1, (trackVelocity_frame _).2.2.2.1,
      (trackHeight_frame _).2.2.2.1, (trackDistance_frame _).2.2.2.1,
      (pushTrajectory_frame _).2.2.2.1, (trackStop_frame _).2.2.2.1]
  · rfl

theorem tick_paused (o : Obs) (s : SimState) : (tick o s).paused = s.paused := by
  unfold tick
  rw [updateProjectileTracking_paused, checkSlingRelease_paused, worldStep_paused]

theorem tick_hit_mono (o : Obs) (s : SimState) (h : s.projectileHitGround = true) :
    (tick o s).projectileHitGround = true := by
  unfold tick
  rw [updateProjectileTracking_hit, checkSlingRelease_hit]
  exact worldStep_hit_mono o s h

theorem set_paused_self (s : SimState) (h : s.paused = true) :
    { s with paused := true } = s := by
  cases s; simp_all

/-! ### C3: ground impact freezes the projectile -/

theorem tracking_hit_freeze (s : SimState) (h1 : s.projectile = true)
    (h2 : s.projectileHitGround = true) :
    (updateProjectileTracking s).projVel = (0, 0) ∧
    (updateProjectileTracking s).projAngVel = 0 ∧
    (updateProjectileTracking s).projStatic = true := by
  unfold updateProjectileTracking
  rw [if_pos h1]
  obtain ⟨-, -, -, -, -, -, -, hv1, ha1, hs1⟩ := trackTime_frame
    (trackVelocity (trackHeight (trackDistance (pushTrajectory (trackStop s)))))
  obtain ⟨-, -, -, -, -, -, -, hv2, ha2, hs2⟩ := trackVelocity_frame
    (trackHeight (trackDistance (pushTrajectory (trackStop s))))
  obtain ⟨-, -, -, -, -, -, -, hv3, ha3, hs3⟩ := trackHeight_frame
    (trackDistance (pushTrajectory (trackStop s)))
  obtain ⟨-, -, -, -, -, -, -, hv4, ha4, hs4⟩ := trackDistance_frame
    (pushTrajectory (trackStop s))
  obtain ⟨-, -, -, -, -, -, -, -, hv5, ha5, hs5⟩ := pushTrajectory_frame (trackStop s)
  have hstop : (trackStop s).projVel = (0, 0) ∧ (trackStop s).projAngVel = 0 ∧
      (trackStop s).projStatic = true := by
    unfold trackStop; rw [if_pos h2]; exact ⟨rfl, rfl, rfl⟩
  exact ⟨by rw [hv1, hv2, hv3, hv4, hv5, hstop.1],
         by rw [ha1, ha2, ha3, ha4, ha5, hstop.2.1],
         by rw [hs1, hs2, hs3, hs4, hs5, hstop.2.2]⟩

/-- C3: once the projectile's first ground contact after `fire()` is
processed, the `begin-contact` handler zeroes its linear and angular
velocity, converts the body to static and sets the ground-impact flag;
every subsequent tick re-zeroes the velocity and keeps the body static, so
the projectile's velocity is exactly zero at the end of every tick after
ground impact regardless of what the engine delivers; and the ground-impact
flag never reverts, so it flips to true at most once per build. -/
theorem C3_ground_impact_freeze (o : Obs) (s : SimState) :
    (s.projectile = true → s.projectileHitGround = true →
      (tick o s).projVel = (0, 0) ∧ (tick o s).projAngVel = 0 ∧
      (tick o s).projStatic = true ∧ (tick o s).projectileHitGround = true) ∧
    (s.projectile = true → s.fired = true → s.projectileHitGround = false →
      o.contactGround = true →
      (worldStep o s).projectileHitGround = true ∧
      (worldStep o s).projVel = (0, 0) ∧ (worldStep o s).projAngVel = 0 ∧
      (worldStep o s).projStatic = true) ∧
    ((tick o s).projectileHitGround = false → s.projectileHitGround = false) := by
  refine ⟨fun h1 h2 => ?_, fun h1 hf h2 hc => ?_, fun h => ?_⟩
  · have hp : (checkSlingRelease (worldStep o s)).projectile = true := by
      rw [checkSlingRelease_projectile, worldStep_projectile]; exact h1
    have hh : (checkSlingRelease (worldStep o s)).projectileHitGround = true := by
      rw [checkSlingRelease_hit]; exact worldStep_hit_mono o s h2
    have := tracking_hit_freeze _ hp hh
    exact ⟨this.1, this.2.1, this.2.2, tick_hit_mono o s h2⟩
  · unfold worldStep
    rw [if_pos h1, if_pos hc]
    unfold beginContact
    rw [if_pos ⟨h2, hf⟩]
    exact ⟨rfl, rfl, rfl, rfl⟩
  · by_contra hs
    have : s.projectileHitGround = true := by
      cases hh : s.projectileHitGround
      · exact absurd hh hs
      · rfl
    rw [tick_hit_mono o s this] at h
    exact absurd h (by simp)

/-! ### C4: fire() is a guarded no-op and schedules one release -/

/-- C4: `fire()` is a no-op when the `fired` flag is already set or no
projectile exists (the state, including the count of scheduled release
timeouts, is unchanged); otherwise it sets `fired`, unpauses, resets the
stats and schedules exactly one sling-release timeout, and a second
`fire()` in immediate succession changes nothing more — so two calls
schedule exactly one release. -/
theorem fire_noop (s : SimState) (h : s.fired = true ∨ s.projectile = false) :
    fire s = s := by
  unfold fire; rw [if_pos h]

theorem C4_fire_idempotent (s : SimState) :
    ((s.fired = true ∨ s.projectile = false) → fire s = s) ∧
    (s.fired = false → s.projectile = true →
      (fire s).fired = true ∧ (fire s).paused = false ∧
      (fire s).pendingRelease = true ∧
      (fire s).timeoutCount = s.timeoutCount + 1 ∧
      fire (fire s) = fire s) := by
  refine ⟨fire_noop s, fun hf hp => ?_⟩
  have hcond : ¬(s.fired = true ∨ s.projectile = false) := by simp [hf, hp]
  have h1 : (fire s).fired = true := by unfold fire; rw [if_neg hcond]
  have h2 : (fire s).pendingRelease = true := by unfold fire; rw [if_neg hcond]
  have h3 : (fire s).paused = false := by
    simp only [fire, if_neg hcond]
    split_ifs with h
    · rfl
    · simpa using h
  have h4 : (fire s).timeoutCount = s.timeoutCount + 1 := by
    simp only [fire, if_neg hcond]
    split_ifs <;> rfl
  exact ⟨h1, h3, h2, h4, fire_noop (fire s) (Or.inl h1)⟩

/-! ### C2: sling-release policies and at-most-one release -/

/-- Ghost accounting for release events: a further `destroyJoint` on the
sling is possible only while the joint reference is still set. -/
def releaseBudget (s : SimState) : ℕ :=
  s.releaseCount + (if s.slingJoint = true then 1 else 0)

theorem fire_slingJoint (s : SimState) : (fire s).slingJoint = s.slingJoint := by
  simp only [fire]; split_ifs <;> rfl

theorem fire_releaseCount (s : SimState) : (fire s).releaseCount = s.releaseCount := by
  simp only [fire]; split_ifs <;> rfl

theorem checkSlingRelease_cases (s : SimState) :
    checkSlingRelease s = s ∨
    (s.slingJoint = true ∧ checkSlingRelease s =
      { s with slingJoint := false, fired := true,
               releaseCount := s.releaseCount + 1 }) := by
  simp only [checkSlingRelease]
  split_ifs with h1 h2
  · exact Or.inr ⟨h1.1, rfl⟩
  · exact Or.inl rfl
  · exact Or.inl rfl

theorem checkSlingRelease_budget (s : SimState) :
    releaseBudget (checkSlingRelease s) = releaseBudget s := by
  rcases checkSlingRelease_cases s with h | ⟨hj, h⟩
  · rw [h]
  · rw [h]
    unfold releaseBudget
    simp [hj]

theorem worldStep_budget (o : Obs) (s : SimState) :
    releaseBudget (worldStep o s) = releaseBudget s := by
  simp only [releaseBudget, worldStep_slingJoint, worldStep_releaseCount]

theorem tracking_budget (s : SimState) :
    releaseBudget (updateProjectileTracking s) = releaseBudget s := by
  simp only [releaseBudget, updateProjectileTracking_slingJoint,
    updateProjectileTracking_releaseCount]

theorem tick_budget (o : Obs) (s : SimState) :
    releaseBudget (tick o s) = releaseBudget s := by
  unfold tick
  rw [tracking_budget, checkSlingRelease_budget, worldStep_budget]

theorem timeoutFire_cases (s : SimState) :
    timeoutFire s = s ∨ timeoutFire s = { s with pendingRelease := false } ∨
    (s.slingJoint = true ∧ timeoutFire s =
      { s with slingJoint := false, pendingRelease := false,
               releaseCount := s.releaseCount + 1 }) := by
  unfold timeoutFire
  split_ifs with h1 h2
  · exact Or.inr (Or.inr ⟨h2, rfl⟩)
  · exact Or.inr (Or.inl rfl)
  · exact Or.inl rfl

theorem timeoutFire_budget (s : SimState) :
    releaseBudget (timeoutFire s) = releaseBudget s := by
  rcases timeoutFire_cases s with h | h | ⟨hj, h⟩
  · rw [h]
  · rw [h]; rfl
  · rw [h]
    unfold releaseBudget
    simp [hj]

theorem fire_budget (s : SimState) : releaseBudget (fire s) = releaseBudget s := by
  simp only [releaseBudget, fire_slingJoint, fire_releaseCount]

theorem applyEv_budget (s : SimState) (e : Ev) :
    releaseBudget (applyEv s e) = releaseBudget s := by
  cases e with
  | tick o => exact tick_budget o s
  | animate o =>
      unfold applyEv animate; split_ifs
      · rfl
      · exact tick_budget o s
  | fire => exact fire_budget s
  | timeout => exact timeoutFire_budget s

theorem checkSlingRelease_sling_mono (s : SimState) (h : s.slingJoint = false) :
    (checkSlingRelease s).slingJoint = false := by
  simp only [checkSlingRelease]
  split_ifs with h1 h2
  · exact absurd h1.1 (by simp [h])
  · exact h
  · exact h

theorem timeoutFire_sling_mono (s : SimState) (h : s.slingJoint = false) :
    (timeoutFire s).slingJoint = false := by
  unfold timeoutFire
  split_ifs with h1 h2
  · exact absurd h2 (by simp [h])
  · exact h
  · exact h

theorem applyEv_sling_mono (s : SimState) (e : Ev) (h : s.slingJoint = false) :
    (applyEv s e).slingJoint = false := by
  cases e with
  | tick o =>
      show (tick o s).slingJoint = false
      unfold tick
      rw [updateProjectileTracking_slingJoint]
      exact checkSlingRelease_sling_mono _ (by rw [worldStep_slingJoint]; exact h)
  | animate o =>
      unfold applyEv animate; split_ifs
      · exact h
      · unfold tick
        rw [updateProjectileTracking_slingJoint]
        exact checkSlingRelease_sling_mono _ (by rw [worldStep_slingJoint]; exact h)
  | fire => rw [show applyEv s Ev.fire = fire s from rfl, fire_slingJoint]; exact h
  | timeout => exact timeoutFire_sling_mono s h

theorem run_budget (evs : List Ev) (s : SimState) :
    releaseBudget (run evs s) = releaseBudget s := by
  induction evs generalizing s with
  | nil => rfl
  | cons e evs ih =>
      unfold run at *
      rw [List.foldl_cons, ih, applyEv_budget]

theorem run_sling_mono (evs : List Ev) (s : SimState) (h : s.slingJoint = false) :
    (run evs s).slingJoint = false := by
  induction evs generalizing s with
  | nil => exact h
  | cons e evs ih =>
      unfold run at *
      rw [List.foldl_cons]
      exact ih _ (applyEv_sling_mono s e h)

/-- C2 (amended): along any interleaving of ticks, `animate` frames,
`fire()` calls and the delivery of `fire()`'s release timeout, the number of
sling-destruction events plus the still-available release (1 while the
joint reference is set, 0 once cleared) is invariant; hence a fresh build
(no releases yet) sees at most one release event in its lifetime, and once
the joint reference is cleared it stays cleared, making a second
destruction impossible.  (Both policies are armed in the same build — see
the counterexample — so only the "never both" part of the claim fails.) -/
theorem C2_release_at_most_once (evs : List Ev) (s : SimState) :
    releaseBudget (run evs s) = releaseBudget s ∧
    (s.slingJoint = false → (run evs s).slingJoint = false) ∧
    (s.releaseCount = 0 → (run evs s).releaseCount ≤ 1) := by
  refine ⟨run_budget evs s, run_sling_mono evs s, fun h0 => ?_⟩
  have h1 : (run evs s).releaseCount ≤ releaseBudget (run evs s) :=
    Nat.le_add_right _ _
  have h2 := run_budget evs s
  have h3 : releaseBudget s ≤ 1 := by
    unfold releaseBudget
    rw [h0]
    split_ifs <;> simp
  omega

/-- A freshly built simulator state: sling joint present, not fired, paused,
projectile at rest at its start position, zero stats, nothing scheduled. -/
def initBuilt : SimState where
  slingJoint := true
  fired := false
  paused := true
  projectile := true
  projectileHitGround := false
  projStatic := false
  projPos := (0, 0)
  projVel := (0, 0)
  projAngVel := 0
  stats := Stats.zero
  trajectory := []
  startX := 0
  startY := 0
  pendingRelease := false
  releaseCount := 0
  timeoutCount := 0

/-- An engine step outcome whose projectile velocity is `(8, -8)`: speed
`√128 > 10`, velocity angle from horizontal exactly 45°. -/
def obs45 : Obs := ⟨(0, 0), (8, -8), false⟩

theorem atan2_88 : atan2 (8 : ℝ) 8 = Real.pi / 4 := by
  unfold atan2
  rw [if_pos (by norm_num : (0 : ℝ) < 8)]
  norm_num [Real.arctan_one]

theorem sqrt128_gt_10 : Real.sqrt ((8 : ℝ) * 8 + (-8) * (-8)) > 10 := by
  have h : ((8 : ℝ) * 8 + (-8) * (-8)) = 128 := by norm_num
  rw [h]
  rw [gt_iff_lt, Real.lt_sqrt (by norm_num : (0 : ℝ) ≤ 10)]
  norm_num

/-- C2 counterexample: after one `fire()` on a fresh build, both release
policies are armed at once in the same build — the elapsed-time timeout is
scheduled (`pendingRelease`), and the per-tick angle/velocity check fires
on a tick whose velocity is `(8, -8)` (speed `√128 > 10`, angle 45°);
either mechanism alone performs the release — refuting "exactly one
sling-release policy is active (… but never both)". -/
theorem C2_counterexample_both_policies_armed :
    (fire initBuilt).pendingRelease = true ∧
    (tick obs45 (fire initBuilt)).slingJoint = false ∧
    (tick obs45 (fire initBuilt)).releaseCount = 1 ∧
    (timeoutFire (fire initBuilt)).slingJoint = false ∧
    (timeoutFire (fire initBuilt)).releaseCount = 1 := by
  have hfire : fire initBuilt =
      { initBuilt with
          paused := false
          fired := true
          stats := Stats.zero
          pendingRelease := true
          timeoutCount := 1 } := rfl
  have hw : worldStep obs45 (fire initBuilt) =
      { initBuilt with
          paused := false
          fired := true
          stats := Stats.zero
          pendingRelease := true
          timeoutCount := 1
          projPos := (0, 0)
          projVel := (8, -8) } := rfl
  have hcond : Real.sqrt ((8 : ℝ) * 8 + (-8) * (-8)) > 10 ∧
      |atan2 (-(-8 : ℝ)) 8 - Real.pi / 4| < 0.05 := by
    refine ⟨sqrt128_gt_10, ?_⟩
    have h8 : (-(-8 : ℝ)) = 8 := by norm_num
    rw [h8, atan2_88]
    norm_num
  have hrel : checkSlingRelease (worldStep obs45 (fire initBuilt)) =
      { initBuilt with
          paused := false
          fired := true
          stats := Stats.zero
          pendingRelease := true
          timeoutCount := 1
          projPos := (0, 0)
          projVel := (8, -8)
          slingJoint := false
          releaseCount := 1 } := by
    rw [hw]
    simp only [checkSlingRelease]
    rw [if_pos ⟨rfl, rfl⟩, if_pos hcond]
    rfl
  refine ⟨rfl, ?_, ?_, rfl, rfl⟩
  · show (updateProjectileTracking (checkSlingRelease (worldStep obs45 (fire initBuilt)))).slingJoint = false
    rw [updateProjectileTracking_slingJoint, hrel]
  · show (updateProjectileTracking (checkSlingRelease (worldStep obs45 (fire initBuilt)))).releaseCount = 1
    rw [updateProjectileTracking_releaseCount, hrel]

/-! ### C5: arm fixture density -/

/-- `const armWidth = 0.75` in `HingedTrebuchetBuilder.build`
(hinged-trebuchet.js, line 25). -/
def hingedArmWidth : ℝ := 0.75

/-- Arm fixture density of `HingedTrebuchetBuilder.build`
(hinged-trebuchet.js, line 34):
`density: params.armMass / (params.armLength * armWidth)`. -/
noncomputable def hingedArmDensity (p : Params) : ℝ :=
  p.armMass / (p.armLength * hingedArmWidth)

/-- Full area of the hinged arm's fixture: the shape is
`Box(armLength / 2, armWidth / 2)` (half-extents), so it spans
`armLength × armWidth`. -/
def hingedArmArea (p : Params) : ℝ := p.armLength * hingedArmWidth

/-- Arm fixture density of `FixedCounterweightTrebuchetBuilder.build`
(base-trebuchet.js, line 135): the literal `density: 1.0`. -/
def fixedArmDensity : ℝ := 1.0

/-- Full area of the fixed builder's arm fixture: the shape is
`Box((leftArmLength + rightArmLength) / 2, 1 / 2)`, so it spans
`(projectileArmLength + counterweightArmLength) × 1`. -/
def fixedArmArea (p : Params) : ℝ :=
  (p.projectileArmLength + p.counterweightArmLength) * 1

/-- Arm fixture density of `SandboxTrebuchetBuilder.build`
(sandbox-trebuchet.js, line 38): the literal `density: 1.0`. -/
def sandboxArmDensity : ℝ := 1.0

/-- Full area of the sandbox builder's arm fixture: the shape is
`Box(params.armLength / 2, 1 / 2)`, so it spans `armLength × 1`. -/
def sandboxArmArea (p : Params) : ℝ := p.armLength * 1

/-- C5 (amended): only the hinged builder of `hinged-trebuchet.js` derives
the arm fixture density from the user's `armMass` (density = armMass /
(armLength · armWidth), so density × area = armMass whenever the arm's area
is nonzero); the fixed-counterweight and sandbox builders set the arm
fixture density to the hardcoded literal 1.0, ignoring `armMass`. -/
theorem C5_arm_density (p : Params) :
    (hingedArmArea p ≠ 0 → hingedArmDensity p * hingedArmArea p = p.armMass) ∧
    fixedArmDensity = 1 ∧ sandboxArmDensity = 1 := by
  refine ⟨fun h => ?_, by norm_num [fixedArmDensity], by norm_num [sandboxArmDensity]⟩
  unfold hingedArmDensity hingedArmArea at *
  exact div_mul_cancel₀ p.armMass h

/-- C5 counterexample: at the default parameters the fixed-counterweight
builder's arm has area `(14 + 6) × 1 = 20` and `armMass = 30`, so a
mass-derived density would be 1.5; the fixture's density is the hardcoded
1.0 — the arm's physical mass is not the user-specified `armMass`. -/
theorem C5_counterexample_hardcoded_arm_density :
    fixedArmDensity = 1 ∧
    defaultParameters.armMass / fixedArmArea defaultParameters = 1.5 ∧
    fixedArmDensity ≠ defaultParameters.armMass / fixedArmArea defaultParameters ∧
    sandboxArmDensity ≠
      defaultParameters.armMass / sandboxArmArea { defaultParameters with armLength := 20 } := by
  refine ⟨by norm_num [fixedArmDensity], ?_, ?_, ?_⟩ <;>
    norm_num [fixedArmArea, sandboxArmArea, defaultParameters, fixedArmDensity,
      sandboxArmDensity]

/-! ### C6: unknown archetype name -/

/-- The registered builder kinds (`this.builders` and `getBuilderClass`'s
`classMap` of the canonical `TrebuchetSimulator` share these six keys). -/
inductive BuilderKind where
  | fixed | hinged | whipper | floating | walking | sandbox
deriving DecidableEq

/-- `getBuilderClass(type)` (canonical trebuchet.js, lines 345–355):
`classMap[type]`, `undefined` (`none`) for an unregistered name. -/
def getBuilderClass (type : String) : Option BuilderKind :=
  if type = "fixed" then some .fixed
  else if type = "hinged" then some .hinged
  else if type = "whipper" then some .whipper
  else if type = "floating" then some .floating
  else if type = "walking" then some .walking
  else if type = "sandbox" then some .sandbox
  else none

/-- The controller state `buildTrebuchet` manipulates: whether a live
trebuchet instance (bodies/joints/projectile) is stored, whether this call
destroyed the previous build's bodies, the stored archetype name, whether
the stored references are stale (they point at bodies already destroyed),
and whether a new trebuchet was built. -/
structure CtrlState where
  hasTrebuchet : Bool
  oldDestroyed : Bool
  trebuchetType : String
  staleRefs : Bool
  builtNew : Bool
deriving DecidableEq

/-- `buildTrebuchet(type, params)` control flow (canonical trebuchet.js,
lines 357–402): first the previous build's bodies and joints are destroyed
(lines 358–368) and the type stored (line 370); then
`calculateEstimatedDistance()` (line 376) executes
`new (this.getBuilderClass(this.trebuchetType))(tempSimulator)` (lines
476–477), which for an unregistered name throws a
`TypeError: builderClass is not a constructor` that escapes the call
(`Except.error`); only for registered names does control reach the
unknown-type guard at lines 387–390 (which therefore never fires, since
`this.builders` has the same six keys) and the build-and-store steps. -/
def buildTrebuchet (s : CtrlState) (type : String) : Except CtrlState CtrlState :=
  let s1 : CtrlState :=
    { hasTrebuchet := false, oldDestroyed := true, trebuchetType := type,
      staleRefs := s.hasTrebuchet, builtNew := false }
  match getBuilderClass type with
  | none => .error s1
  | some _ => .ok { s1 with hasTrebuchet := true, staleRefs := false, builtNew := true }

/-- C6: at the failing input — an unregistered archetype name, after a
successful `sandbox` build — the model of `buildTrebuchet` escapes with an
exception (the `TypeError` thrown inside `calculateEstimatedDistance`)
after the old trebuchet's bodies have already been destroyed, leaving stale
references and no new build: the failure is fatal and the engine is left
with a half-destroyed instance, contradicting the claim. -/
theorem C6_unknown_archetype_crash :
    getBuilderClass "catapult" = none ∧
    buildTrebuchet ⟨true, false, "sandbox", false, true⟩ "catapult" =
      .error ⟨false, true, "catapult", true, false⟩ ∧
    (∃ k, getBuilderClass "sandbox" = some k) ∧
    buildTrebuchet ⟨true, false, "sandbox", false, true⟩ "sandbox" =
      .ok ⟨true, true, "sandbox", false, true⟩ := by
  refine ⟨rfl, rfl, ⟨BuilderKind.sandbox, rfl⟩, rfl⟩

/-! ### C8: the estimation engine (`calculateEstimatedDistance`) -/

/-- What one `tempWorld.step(dt)` of the isolated estimation world delivers
for its projectile: position and linear velocity (the fresh world is again
an external oracle). -/
structure EstObs where
  pos : ℝ × ℝ
  vel : ℝ × ℝ

/-- The local state of `calculateEstimatedDistance`'s silent loop
(canonical trebuchet.js, lines 481–519).  `steps` is a ghost counter of
`tempWorld.step` calls. -/
structure EstState where
  slingJoint : Bool
  fired : Bool
  hitGround : Bool
  maxX : ℝ
  simTime : ℝ
  steps : ℕ

/-- The release condition of the estimation loop (lines 497–503): the same
angle/velocity test as `checkSlingRelease` (speed > 10 and velocity angle
within 0.05 rad of 45°). -/
noncomputable def estReleaseCond (vel : ℝ × ℝ) : Prop :=
  Real.sqrt (vel.1 * vel.1 + vel.2 * vel.2) > 10 ∧
  |atan2 (-vel.2) vel.1 - Real.pi / 4| < 0.05

open Classical in
/-- One iteration of the silent loop (lines 491–519): advance the temp
world and the clock; destroy the temp sling when the joint still exists,
the loop has not already released (`!tempFired`) and the angle/velocity
condition holds; then, only once released, fold the projectile's x
displacement from `baseX` into `maxX` and set the geometric ground-impact
flag when `pos.y ≥ groundTop`. -/
noncomputable def estIter (groundTop baseX : ℝ) (o : EstObs) (t : EstState) :
    EstState :=
  let t1 := { t with simTime := t.simTime + 1 / 60, steps := t.steps + 1 }
  let t2 := if t1.slingJoint = true ∧ t1.fired = false ∧ estReleaseCond o.vel then
      { t1 with slingJoint := false, fired := true }
    else t1
  if t2.fired = true then
    let t3 := { t2 with maxX := max t2.maxX (o.pos.1 - baseX) }
    if o.pos.2 ≥ groundTop then { t3 with hitGround := true } else t3
  else t2

/-- The silent simulation loop (line 491):
`while (simTime < maxSimTime && !tempProjectileHitGround)` with
`maxSimTime = 30` and `dt = 1/60`, driven by the temp world's per-step
observations. -/
noncomputable def estLoop (groundTop baseX : ℝ) :
    List EstObs → EstState → EstState
  | [], t => t
  | o :: os, t =>
      if t.simTime < 30 ∧ t.hitGround = false then
        estLoop groundTop baseX os (estIter groundTop baseX o t)
      else t

/-- The loop state just after the temp build: sling joint present, not
released, not landed, `maxX = 0`, clock and step counter at zero. -/
def estInit : EstState :=
  { slingJoint := true, fired := false, hitGround := false,
    maxX := 0, simTime := 0, steps := 0 }

theorem estIter_steps (g b : ℝ) (o : EstObs) (t : EstState) :
    (estIter g b o t).steps = t.steps + 1 := by
  simp only [estIter]
  split_ifs <;> rfl

theorem estIter_simTime (g b : ℝ) (o : EstObs) (t : EstState) :
    (estIter g b o t).simTime = t.simTime + 1 / 60 := by
  simp only [estIter]
  split_ifs <;> rfl

theorem est_steps_bound (g b : ℝ) (os : List EstObs) (t : EstState)
    (hclock : t.simTime = (t.steps : ℝ) * (1 / 60)) (hsteps : t.steps ≤ 1800) :
    (estLoop g b os t).steps ≤ 1800 := by
  induction os generalizing t with
  | nil => exact hsteps
  | cons o os ih =>
      unfold estLoop
      split_ifs with h
      · refine ih (estIter g b o t) ?_ ?_
        · rw [estIter_simTime, estIter_steps, hclock]
          push_cast
          ring
        · have hlt : (t.steps : ℝ) * (1 / 60) < 30 := hclock ▸ h.1
          have : (t.steps : ℝ) < 1800 := by linarith
          have : t.steps < 1800 := by exact_mod_cast this
          rw [estIter_steps]
          omega
      · exact hsteps

theorem est_hit_stop (g b : ℝ) (os : List EstObs) (t : EstState)
    (h : t.hitGround = true) : estLoop g b os t = t := by
  cases os with
  | nil => rfl
  | cons o os =>
      unfold estLoop
      rw [if_neg]
      rintro ⟨-, hfalse⟩
      rw [h] at hfalse
      cases hfalse

theorem estReleaseCond_zero : ¬estReleaseCond ((0 : ℝ), (0 : ℝ)) := by
  rintro ⟨hspeed, -⟩
  have : Real.sqrt ((0 : ℝ) * 0 + 0 * 0) = 0 := by norm_num
  rw [this] at hspeed
  norm_num at hspeed

theorem est_zero_vel (g b : ℝ) (os : List EstObs) (t : EstState)
    (hz : ∀ o ∈ os, o.vel = ((0 : ℝ), (0 : ℝ))) (hf : t.fired = false) :
    (estLoop g b os t).fired = false ∧ (estLoop g b os t).maxX = t.maxX := by
  induction os generalizing t with
  | nil => exact ⟨hf, rfl⟩
  | cons o os ih =>
      unfold estLoop
      split_ifs with h
      · have hov : o.vel = ((0 : ℝ), (0 : ℝ)) := hz o (List.mem_cons_self o os)
        have hrel : ¬estReleaseCond o.vel := by
          rw [hov]; exact estReleaseCond_zero
        have hiter : estIter g b o t =
            { t with simTime := t.simTime + 1 / 60, steps := t.steps + 1 } := by
          simp only [estIter]
          have hc1 : ¬(t.slingJoint = true ∧ t.fired = false ∧
              estReleaseCond o.vel) := fun hc => hrel hc.2.2
          rw [if_neg hc1]
          split_ifs with h2 h3
          · exact absurd h2 (by simp [hf])
          · exact absurd h2 (by simp [hf])
          · rfl
        rw [hiter]
        exact ih _ (fun o' ho' => hz o' (List.mem_cons_of_mem o ho')) hf
      · exact ⟨hf, rfl⟩

/-- C8 (amended): the estimation loop of `calculateEstimatedDistance` runs
in a fresh world (its state is the loop-local `EstState`, disjoint from the
live `SimState`), but it uses only the angle/velocity release policy — the
live loop's elapsed-time `setTimeout` release does not exist there, so a
run whose projectile never meets that condition never releases and returns
the initial 0 — and a geometric impact test (`pos.y ≥ groundTop`, checked
only after release) instead of the live contact-based handler; the loop
always stops within 1800 ticks (30 simulated seconds at 1/60 s per step) or
immediately upon ground impact. -/
theorem C8_estimation_loop (g b : ℝ) (os : List EstObs) :
    (estLoop g b os estInit).steps ≤ 1800 ∧
    (∀ t : EstState, t.hitGround = true → estLoop g b os t = t) ∧
    ((∀ o ∈ os, o.vel = ((0 : ℝ), (0 : ℝ))) →
      (estLoop g b os estInit).fired = false ∧
      (estLoop g b os estInit).maxX = 0) :=
  ⟨est_steps_bound g b os estInit (by norm_num [estInit]) (by norm_num [estInit]),
   fun t ht => est_hit_stop g b os t ht,
   fun hz => est_zero_vel g b os estInit hz rfl⟩

/-- C8 counterexample: the estimation loop does not use the same release
policy as the live loop.  Concretely: drive both with a projectile whose
velocity stays `(0, 0)`.  The live controller, after `fire()`, destroys the
sling via the scheduled elapsed-time timeout even at zero velocity; the
estimation loop, fed 1800 zero-velocity ticks, never releases and returns
`maxX = 0`. -/
theorem C8_counterexample_policy_mismatch :
    (timeoutFire (fire initBuilt)).slingJoint = false ∧
    (timeoutFire (fire initBuilt)).releaseCount = 1 ∧
    (estLoop 99.5 10 (List.replicate 1800 ⟨(0, 0), (0, 0)⟩) estInit).fired = false ∧
    (estLoop 99.5 10 (List.replicate 1800 ⟨(0, 0), (0, 0)⟩) estInit).maxX = 0 := by
  have hz : ∀ o ∈ List.replicate 1800 (EstObs.mk ((0 : ℝ), (0 : ℝ)) ((0 : ℝ), (0 : ℝ))),
      o.vel = ((0 : ℝ), (0 : ℝ)) := by
    intro o ho
    rw [List.eq_of_mem_replicate ho]
  have h := est_zero_vel 99.5 10 _ estInit hz rfl
  exact ⟨rfl, rfl, h.1, h.2⟩

/-! ### C7: statistics updates -/

theorem trackStop_projVel (s : SimState) :
    (trackStop s).projVel =
      (if s.projectileHitGround = true then ((0 : ℝ), (0 : ℝ)) else s.projVel) := by
  unfold trackStop; split_ifs <;> rfl

theorem trackDistance_stats (x : SimState) :
    (trackDistance x).stats.distance = max 0 (x.projPos.1 - x.startX) ∧
    (trackDistance x).stats.maxDistance =
      max x.stats.maxDistance (x.projPos.1 - x.startX) ∧
    (trackDistance x).stats.height = x.stats.height ∧
    (trackDistance x).stats.maxHeight = x.stats.maxHeight ∧
    (trackDistance x).stats.velocity = x.stats.velocity ∧
    (trackDistance x).stats.maxVelocity = x.stats.maxVelocity ∧
    (trackDistance x).stats.time = x.stats.time := by
  simp only [trackDistance]
  split_ifs with h
  · exact ⟨rfl, (max_eq_right h.le).symm, rfl, rfl, rfl, rfl, rfl⟩
  · exact ⟨rfl, (max_eq_left (not_lt.mp h)).symm, rfl, rfl, rfl, rfl, rfl⟩

theorem trackHeight_stats (x : SimState) :
    (trackHeight x).stats.height = max 0 (x.startY - x.projPos.2) ∧
    (trackHeight x).stats.maxHeight =
      max x.stats.maxHeight (x.startY - x.projPos.2) ∧
    (trackHeight x).stats.distance = x.stats.distance ∧
    (trackHeight x).stats.maxDistance = x.stats.maxDistance ∧
    (trackHeight x).stats.velocity = x.stats.velocity ∧
    (trackHeight x).stats.maxVelocity = x.stats.maxVelocity ∧
    (trackHeight x).stats.time = x.stats.time := by
  simp only [trackHeight]
  split_ifs with h
  · exact ⟨rfl, (max_eq_right h.le).symm, rfl, rfl, rfl, rfl, rfl⟩
  · exact ⟨rfl, (max_eq_left (not_lt.mp h)).symm, rfl, rfl, rfl, rfl, rfl⟩

theorem trackVelocity_stats (x : SimState) :
    (trackVelocity x).stats.velocity =
      Real.sqrt (x.projVel.1 * x.projVel.1 + x.projVel.2 * x.projVel.2) ∧
    (trackVelocity x).stats.maxVelocity =
      max x.stats.maxVelocity
        (Real.sqrt (x.projVel.1 * x.projVel.1 + x.projVel.2 * x.projVel.2)) ∧
    (trackVelocity x).stats.distance = x.stats.distance ∧
    (trackVelocity x).stats.maxDistance = x.stats.maxDistance ∧
    (trackVelocity x).stats.height = x.stats.height ∧
    (trackVelocity x).stats.maxHeight = x.stats.maxHeight ∧
    (trackVelocity x).stats.time = x.stats.time := by
  simp only [trackVelocity]
  split_ifs with h
  · exact ⟨rfl, (max_eq_right h.le).symm, rfl, rfl, rfl, rfl, rfl⟩
  · exact ⟨rfl, (max_eq_left (not_lt.mp h)).symm, rfl, rfl, rfl, rfl, rfl⟩

theorem trackTime_stats (x : SimState) :
    (trackTime x).stats.time =
      (if x.projectileHitGround = true then x.stats.time
       else x.stats.time + 1 / 60) ∧
    (trackTime x).stats.distance = x.stats.distance ∧
    (trackTime x).stats.maxDistance = x.stats.maxDistance ∧
    (trackTime x).stats.height = x.stats.height ∧
    (trackTime x).stats.maxHeight = x.stats.maxHeight ∧
    (trackTime x).stats.velocity = x.stats.velocity ∧
    (trackTime x).stats.maxVelocity = x.stats.maxVelocity := by
  unfold trackTime
  split_ifs with h1 h2 h3
  · exact absurd h2 (by simp [h1])
  · exact ⟨rfl, rfl, rfl, rfl, rfl, rfl, rfl⟩
  · exact ⟨rfl, rfl, rfl, rfl, rfl, rfl, rfl⟩
  · exact absurd h1 (by simp_all)

/-- The statistics produced by the stage pipeline of
`updateProjectileTracking` after the stop-enforcement stage, in terms of the
input state's fields. -/
theorem pipeline_stats (x : SimState) :
    (trackTime (trackVelocity (trackHeight (trackDistance
        (pushTrajectory x))))).stats.distance = max 0 (x.projPos.1 - x.startX) ∧
    (trackTime (trackVelocity (trackHeight (trackDistance
        (pushTrajectory x))))).stats.maxDistance =
      max x.stats.maxDistance (x.projPos.1 - x.startX) ∧
    (trackTime (trackVelocity (trackHeight (trackDistance
        (pushTrajectory x))))).stats.height = max 0 (x.startY - x.projPos.2) ∧
    (trackTime (trackVelocity (trackHeight (trackDistance
        (pushTrajectory x))))).stats.maxHeight =
      max x.stats.maxHeight (x.startY - x.projPos.2) ∧
    (trackTime (trackVelocity (trackHeight (trackDistance
        (pushTrajectory x))))).stats.velocity =
      Real.sqrt (x.projVel.1 * x.projVel.1 + x.projVel.2 * x.projVel.2) ∧
    (trackTime (trackVelocity (trackHeight (trackDistance
        (pushTrajectory x))))).stats.maxVelocity =
      max x.stats.maxVelocity
        (Real.sqrt (x.projVel.1 * x.projVel.1 + x.projVel.2 * x.projVel.2)) ∧
    (trackTime (trackVelocity (trackHeight (trackDistance
        (pushTrajectory x))))).stats.time =
      (if x.projectileHitGround = true then x.stats.time
       else x.stats.time + 1 / 60) := by
  obtain ⟨-, -, -, pB4, pB5, pB6, pB7, pB8, pB9, -, -⟩ := pushTrajectory_frame x
  obtain ⟨-, -, -, cH4, cP5, cX6, cY7, cV8, -, -⟩ :=
    trackDistance_frame (pushTrajectory x)
  obtain ⟨-, -, -, dH4, dP5, dX6, dY7, dV8, -, -⟩ :=
    trackHeight_frame (trackDistance (pushTrajectory x))
  obtain ⟨-, -, -, eH4, -, -, -, -, -, -⟩ :=
    trackVelocity_frame (trackHeight (trackDistance (pushTrajectory x)))
  obtain ⟨c1, c2, c3, c4, c5, c6, c7⟩ := trackDistance_stats (pushTrajectory x)
  obtain ⟨d1, d2, d3, d4, d5, d6, d7⟩ :=
    trackHeight_stats (trackDistance (pushTrajectory x))
  obtain ⟨e1, e2, e3, e4, e5, e6, e7⟩ :=
    trackVelocity_stats (trackHeight (trackDistance (pushTrajectory x)))
  obtain ⟨f1, f2, f3, f4, f5, f6, f7⟩ :=
    trackTime_stats (trackVelocity (trackHeight (trackDistance (pushTrajectory x))))
  have hstats : (pushTrajectory x).stats = x.stats := pB8
  refine ⟨?_, ?_, ?_, ?_, ?_, ?_, ?_⟩
  · rw [f2, e3, d3, c1, pB5, pB6]
  · rw [f3, e4, d4, c2, pB5, pB6, hstats]
  · rw [f4, e5, d1, cY7, cP5, pB7, pB5]
  · rw [f5, e6, d2, cY7, cP5, pB7, pB5, c4, hstats]
  · rw [f6, e1, dV8, cV8, pB9]
  · rw [f7, e2, dV8, cV8, pB9, d6, c6, hstats]
  · rw [f1, eH4, dH4, cH4, pB4, e7, d7, c7, hstats]

/-- C7 (amended): on each tracking update (every tick while not paused, and
once per forced `step` frame), the statistics are computed relative to the
projectile's pre-launch position: `distance = max 0 (x − start.x)` and
`height = max 0 (start.y − y)` — the live height is clamped at 0 exactly
like the distance, which is where the claim as stated fails; velocity is
the magnitude of the linear velocity (0 after ground impact, since the
tracking re-zeroes the landed body first); each of the three maxima updates
to `max old current`, so none decreases across tracking updates (`fire()`
resets the whole stats record); and elapsed time accumulates 1/60 s per
tracking update only until ground impact, after which it stays frozen. -/
theorem C7_stats_update (s : SimState) (hp : s.projectile = true) :
    (updateProjectileTracking s).stats.distance =
      max 0 (s.projPos.1 - s.startX) ∧
    (updateProjectileTracking s).stats.maxDistance =
      max s.stats.maxDistance (s.projPos.1 - s.startX) ∧
    (updateProjectileTracking s).stats.height =
      max 0 (s.startY - s.projPos.2) ∧
    (updateProjectileTracking s).stats.maxHeight =
      max s.stats.maxHeight (s.startY - s.projPos.2) ∧
    (updateProjectileTracking s).stats.velocity =
      (if s.projectileHitGround = true then 0
       else Real.sqrt (s.projVel.1 * s.projVel.1 + s.projVel.2 * s.projVel.2)) ∧
    (updateProjectileTracking s).stats.maxVelocity =
      max s.stats.maxVelocity ((updateProjectileTracking s).stats.velocity) ∧
    (updateProjectileTracking s).stats.time =
      (if s.projectileHitGround = true then s.stats.time
       else s.stats.time + 1 / 60) := by
  unfold updateProjectileTracking
  rw [if_pos hp]
  obtain ⟨p1, p2, p3, p4, p5, p6, p7⟩ := pipeline_stats (trackStop s)
  obtain ⟨-, -, -, a4, a5, a6, a7, a8⟩ := trackStop_frame s
  have hvel : Real.sqrt ((trackStop s).projVel.1 * (trackStop s).projVel.1 +
      (trackStop s).projVel.2 * (trackStop s).projVel.2) =
      (if s.projectileHitGround = true then 0
       else Real.sqrt (s.projVel.1 * s.projVel.1 + s.projVel.2 * s.projVel.2)) := by
    rw [trackStop_projVel]
    split_ifs with h
    · norm_num
    · rfl
  refine ⟨?_, ?_, ?_, ?_, ?_, ?_, ?_⟩
  · rw [p1, a5, a6]
  · rw [p2, a5, a6, a8]
  · rw [p3, a5, a7]
  · rw [p4, a5, a7, a8]
  · rw [p5, hvel]
  · rw [p6, p5, hvel, a8]
  · rw [p7, a4, a8]

/-- The state used to instantiate the C7 theorem at a concrete input. -/
def sWit : SimState := { initBuilt with projPos := (3, 2), projVel := (0, 0), startX := 1, startY := 4 }

theorem C7_stats_update_witness :
    (updateProjectileTracking sWit).stats.distance =
      max 0 (sWit.projPos.1 - sWit.startX) ∧
    (updateProjectileTracking sWit).stats.maxDistance =
      max sWit.stats.maxDistance (sWit.projPos.1 - sWit.startX) ∧
    (updateProjectileTracking sWit).stats.height =
      max 0 (sWit.startY - sWit.projPos.2) ∧
    (updateProjectileTracking sWit).stats.maxHeight =
      max sWit.stats.maxHeight (sWit.startY - sWit.projPos.2) ∧
    (updateProjectileTracking sWit).stats.velocity =
      (if sWit.projectileHitGround = true then 0
       else Real.sqrt (sWit.projVel.1 * sWit.projVel.1 +
         sWit.projVel.2 * sWit.projVel.2)) ∧
    (updateProjectileTracking sWit).stats.maxVelocity =
      max sWit.stats.maxVelocity ((updateProjectileTracking sWit).stats.velocity) ∧
    (updateProjectileTracking sWit).stats.time =
      (if sWit.projectileHitGround = true then sWit.stats.time
       else sWit.stats.time + 1 / 60) :=
  C7_stats_update sWit rfl

/-- The state refuting C7's unclamped-height reading: the projectile sits
3 m below its start position. -/
def sCex : SimState := { initBuilt with projPos := (0, 8), startY := 5 }

/-- C7 counterexample: with the projectile 3 m below its starting position,
the code reports `stats.height = 0` (the live height is clamped at 0), not
`start.y − projectile.y = −3` as the claim's formula states. -/
theorem C7_counterexample_height_clamped :
    (updateProjectileTracking sCex).stats.height = 0 ∧
    sCex.startY - sCex.projPos.2 = -3 ∧
    (updateProjectileTracking sCex).stats.height ≠
      sCex.startY - sCex.projPos.2 := by
  have hp : sCex.projectile = true := rfl
  have h := pipeline_stats (trackStop sCex)
  obtain ⟨-, -, -, -, a5, -, a7, -⟩ := trackStop_frame sCex
  have hph : (updateProjectileTracking sCex).stats.height = max 0 (-3 : ℝ) := by
    unfold updateProjectileTracking
    rw [if_pos hp, h.2.2.1, a5, a7]
    norm_num [sCex, initBuilt]
  have hmax : max (0 : ℝ) (-3) = 0 := by norm_num
  refine ⟨by rw [hph, hmax], by norm_num [sCex, initBuilt], ?_⟩
  rw [hph, hmax]
  norm_num [sCex, initBuilt]

/-! ### C9 and C10: the step loop -/

theorem ticks_paused (os : List Obs) (s : SimState) :
    (ticks os s).paused = s.paused := by
  induction os generalizing s with
  | nil => rfl
  | cons o os ih => unfold ticks at *; rw [List.foldl_cons, ih, tick_paused]

theorem stepOp_paused (os : List Obs) (s : SimState) :
    (stepOp os s).paused = true := by
  unfold stepOp; rw [ticks_paused]

/-- C10: after `step(n)` returns, the controller's `paused` flag is `true`
for every prior pause state: `step` sets `paused := true` (the saved
`wasPaused` is never restored), so single-stepping halts continuous play
until `pause()` or `fire()` is called again. -/
theorem C10_step_forces_pause (os : List Obs) (s : SimState) :
    (stepOp os s).paused = true :=
  stepOp_paused os s

theorem steps1_eq_ticks (os : List Obs) (s : SimState) (h : s.paused = true) :
    os.foldl (fun t o => stepOp [o] t) s = ticks os s := by
  induction os generalizing s with
  | nil => rfl
  | cons o os ih =>
      rw [List.foldl_cons]
      unfold ticks
      rw [List.foldl_cons]
      have h1 : stepOp [o] s = tick o s := by
        unfold stepOp ticks
        rw [set_paused_self s h, List.foldl_cons, List.foldl_nil]
      rw [h1]
      have h2 : (tick o s).paused = true := by rw [tick_paused]; exact h
      exact ih (tick o s) h2

/-- C9: for every `k ≥ 1` and every starting state, `k` successive `step(1)`
calls produce exactly the same simulation state (world observables,
release/impact flags, statistics) as one `step(k)` call driven by the same
per-tick engine outcomes: each forced tick advances by the same fixed 1/60
step and runs the same release evaluation and projectile tracking. -/
theorem C9_step_composition (o : Obs) (os : List Obs) (s : SimState) :
    (o :: os).foldl (fun t o' => stepOp [o'] t) s = stepOp (o :: os) s := by
  rw [List.foldl_cons]
  have h1 : (stepOp [o] s).paused = true := stepOp_paused [o] s
  rw [steps1_eq_ticks os (stepOp [o] s) h1]
  unfold stepOp ticks
  simp only [List.foldl_cons, List.foldl_nil]

end Trebuchet
